import Mathlib

/-!
Verification development for the emmaly/perplexity Go client.

The Go source (package perplexity) is shallowly embedded below:
pure data types become Lean structures, the HTTP exchange and the
JSON codec (json.Marshal / json.Unmarshal, which live in the Go
standard library, outside this repository) are abstract parameters,
and ChatCompletion is a pure function returning an explicit trace:
the decoded response, the error, the ordered list of callback
invocations (the arguments passed to the OnUpdateHandler, in call
order), whether the HTTP exchange was performed, and the number of
times the response body was closed.
-/

namespace Perplexity

/-! String helpers.

Go indexes strings by bytes; the Go code checks only ASCII literals
(line[:6] == "data: " after a len guard, strings.HasPrefix), for which
byte indexing and character indexing agree on UTF-8 text.  We model a
Go string as a Lean String and byte slicing as slicing of the
character list. -/

/-- Model of the Go slice expression s[:n] for ASCII-checked bounds. -/
def strTake (s : String) (n : Nat) : String := ⟨s.data.take n⟩

/-- Model of the Go slice expression s[n:] for ASCII-checked bounds. -/
def strDrop (s : String) (n : Nat) : String := ⟨s.data.drop n⟩

/-- Model of Go strings.HasPrefix. -/
def strHasPre (s p : String) : Bool := s.data.take p.data.length == p.data

/-! Data model, from the Go type declarations. -/

/-- MessageRole represents the role of the speaker in a message (Go: type MessageRole string). -/
abbrev MessageRole := String

def MessageRoleSystem : MessageRole := "system"
def MessageRoleUser : MessageRole := "user"
def MessageRoleAssistant : MessageRole := "assistant"

/-- Message represents a message in the conversation. -/
structure Message where
  role : MessageRole
  content : String
deriving Repr, DecidableEq

/-- FinishReason represents the reason the model stopped generating tokens (Go string type). -/
abbrev FinishReason := String

/-- Usage contains usage statistics for the completion request. -/
structure Usage where
  promptTokens : Int
  completionTokens : Int
  totalTokens : Int
deriving Repr, DecidableEq

/-- Choice represents a single completion choice generated by the model. -/
structure Choice where
  index : Int
  finishReason : FinishReason
  message : Message
  delta : Message
deriving Repr, DecidableEq

/-- ChatCompletionResponse represents a response from the chat completion API. -/
structure ChatCompletionResponse where
  id : String
  model : String
  object : String
  created : Int
  choices : List Choice
  usage : Usage
deriving Repr, DecidableEq

/-- ChatCompletionRequest represents a request for a chat completion.

The Go field Stream has type OnUpdateHandler (a function value); the
embedding is polymorphic in the callback type σ so that theorems can
quantify over arbitrary callback values.  Go float64 parameters are
modelled as rationals (the code only compares them with 0). -/
structure ChatCompletionRequest (σ : Type) where
  model : String
  messages : List Message
  maxTokens : Int := 0
  temperature : Rat := 0
  topP : Rat := 0
  returnCitations : Bool := false
  searchDomainFilter : Option (List String) := none
  returnImages : Bool := false
  returnRelatedQuestions : Bool := false
  searchRecencyFilter : String := ""
  topK : Int := 0
  stream : Option σ := none
  presencePenalty : Rat := 0
  frequencyPenalty : Rat := 0

/-- Model of the Go apiError struct: { Error string with json key error }. -/
structure ApiErrorPayload where
  error : String
deriving Repr, DecidableEq

/-! JSON values, for the wire form produced by MarshalJSON. -/

/-- Minimal JSON value model for serialized request fields. -/
inductive Jval where
  | null : Jval
  | bool : Bool → Jval
  | num : Rat → Jval
  | str : String → Jval
  | arr : List Jval → Jval
  | obj : List (String × Jval) → Jval
deriving Repr

/-- Wire form of a Message (json keys role, content). -/
def msgJval (m : Message) : Jval :=
  .obj [("role", .str m.role), ("content", .str m.content)]

/-- Model of the custom MarshalJSON on ChatCompletionRequest: the Alias
fields in declared order under their json tags (omitempty fields omitted
at their zero values, the Stream callback skipped by its json:"-" tag),
followed by the derived boolean stream field, itself omitempty, whose
value is the Go expression req.Stream != nil. -/
def marshalChatCompletionRequest {σ : Type} (req : ChatCompletionRequest σ) :
    List (String × Jval) :=
  [("model", Jval.str req.model),
   ("messages", Jval.arr (req.messages.map msgJval))]
  ++ (if req.maxTokens = 0 then [] else [("max_tokens", Jval.num (req.maxTokens : Rat))])
  ++ (if req.temperature = 0 then [] else [("temperature", Jval.num req.temperature)])
  ++ (if req.topP = 0 then [] else [("top_p", Jval.num req.topP)])
  ++ [("return_citations", Jval.bool req.returnCitations)]
  ++ [("search_domain_filter",
        match req.searchDomainFilter with
        | none => Jval.null
        | some xs => Jval.arr (xs.map Jval.str))]
  ++ [("return_images", Jval.bool req.returnImages)]
  ++ [("return_related_questions", Jval.bool req.returnRelatedQuestions)]
  ++ (if req.searchRecencyFilter = "" then []
      else [("search_recency_filter", Jval.str req.searchRecencyFilter)])
  ++ (if req.topK = 0 then [] else [("top_k", Jval.num (req.topK : Rat))])
  ++ (if req.presencePenalty = 0 then []
      else [("presence_penalty", Jval.num req.presencePenalty)])
  ++ (if req.frequencyPenalty = 0 then []
      else [("frequency_penalty", Jval.num req.frequencyPenalty)])
  ++ (if req.stream.isSome then [("stream", Jval.bool true)] else [])

/-- First value bound to a key in a serialized field list. -/
def lookupField (fields : List (String × Jval)) (key : String) : Option Jval :=
  match fields with
  | [] => none
  | (k, v) :: rest => if k = key then some v else lookupField rest key

/-! Errors.  Each constructor corresponds to one distinct error
construction site in the Go code; CallError.text renders the message
the Go fmt/errors calls would produce (wrapped inner errors carry the
inner message after the wrapping text). -/

/-- Distinct error values ChatCompletion and handleStreamingResponse can return. -/
inductive CallError where
  | validation (msg : String)
  | transport (msg : String)
  | apiError (msg : String)
  | unexpectedStatus (status : String)
  | missingHandler
  | handlerRequired
  | eventDecode (msg : String)
  | streamRead (msg : String)
  | bodyRead (msg : String)
  | bodyDecode (msg : String)
deriving Repr, DecidableEq

/-- Rendered error text, mirroring the Go errors.New / fmt.Errorf format strings. -/
def CallError.text : CallError → String
  | .validation m => m
  | .transport m => m
  | .apiError m => "API error: " ++ m
  | .unexpectedStatus s => "unexpected status code: " ++ s
  | .missingHandler => "streaming response received but no stream handler provided"
  | .handlerRequired => "onUpdate handler is required for streaming responses"
  | .eventDecode m => "failed to unmarshal streaming event: " ++ m
  | .streamRead m => "error reading streaming response: " ++ m
  | .bodyRead m => m
  | .bodyDecode m => m

/-! Transport model.  The response body byte stream is abstracted as
the sequence of lines the bufio.Scanner would deliver, plus an
optional read error surfaced (by scanner.Err or io.ReadAll) once the
available data is exhausted. -/

/-- Response body: the lines readable from the stream, then an optional read error. -/
structure Body where
  lines : List String
  readErr : Option String
deriving Repr, DecidableEq

/-- Bytes io.ReadAll returns for a body (its available data). -/
def Body.readData (b : Body) : String := String.intercalate "\n" b.lines

/-- Transport response: status code, status text, Content-Type header, body. -/
structure HttpResponse where
  statusCode : Int
  status : String
  contentType : String
  body : Body
deriving Repr, DecidableEq

/-- Abstract JSON decoder into T (model of json.Unmarshal at type T):
either the decoded value or the decoder error message. -/
abbrev Decoder (T : Type) := String → Except String T

/-- The Go guard len(line) >= 6 && line[:6] == "data: ". -/
def isDataLine (line : String) : Bool :=
  decide (6 ≤ line.data.length) && (strTake line 6 == "data: ")

/-- The Go guard contentType == "text/event-stream" || strings.HasPrefix(contentType, "text/event-stream;"). -/
def isEventStream (contentType : String) : Bool :=
  contentType == "text/event-stream" || strHasPre contentType "text/event-stream;"

/-- The scanner loop of handleStreamingResponse.  Returns the list of
values passed to the onUpdate callback, in call order, and the error
the loop returns (none on clean termination).  The scanner.Err check
only fires when the loop exhausts the lines without hitting the
sentinel (after a break the error has not been encountered). -/
def streamLoop (decode : Decoder ChatCompletionResponse) (readErr : Option String) :
    List String → List ChatCompletionResponse × Option CallError
  | [] =>
    match readErr with
    | some e => ([], some (.streamRead e))
    | none => ([], none)
  | line :: rest =>
    if line = "" then streamLoop decode readErr rest
    else if line = "data: [DONE]" then ([], none)
    else if isDataLine line then
      match decode (strDrop line 6) with
      | .error e => ([], some (.eventDecode e))
      | .ok r =>
        let p := streamLoop decode readErr rest
        (r :: p.1, p.2)
    else streamLoop decode readErr rest

/-- Outcome of handleStreamingResponse: callback invocations in order,
returned error, number of Body.Close calls it performs. -/
structure StreamResult where
  events : List ChatCompletionResponse
  error : Option CallError
  closes : Nat
deriving Repr, DecidableEq

/-- Model of handleStreamingResponse.  Its defer closes the body exactly
once on every return path; hasHandler is the Go test onUpdate != nil. -/
def handleStreamingResponse (decode : Decoder ChatCompletionResponse)
    (hasHandler : Bool) (body : Body) : StreamResult :=
  if hasHandler = false then ⟨[], some .handlerRequired, 1⟩
  else
    let p := streamLoop decode body.readErr body.lines
    ⟨p.1, p.2, 1⟩

/-- Observable trace of one ChatCompletion call: the returned response
pointer and error, the callback invocations in order, whether the HTTP
exchange (client.Do) ran, and how many times res.Body.Close ran. -/
structure CallResult where
  response : Option ChatCompletionResponse
  error : Option CallError
  events : List ChatCompletionResponse
  exchanged : Bool
  closes : Nat
deriving Repr, DecidableEq

/-- Model of Client.ChatCompletion.  decode models json.Unmarshal into
ChatCompletionResponse (used both for the single-document body and for
each streamed event); decodeApi models json.Unmarshal into apiError;
exchange is the outcome of client.Do: a transport error or an
HttpResponse.  The deferred res.Body.Close in ChatCompletion runs on
every path after a response is received; on the streaming path
handleStreamingResponse contributes its own close as well. -/
def ChatCompletion {σ : Type} (decode : Decoder ChatCompletionResponse)
    (decodeApi : Decoder ApiErrorPayload)
    (req : ChatCompletionRequest σ)
    (exchange : Except String HttpResponse) : CallResult :=
  if req.model = "" then
    ⟨none, some (.validation "model is required"), [], false, 0⟩
  else if req.messages.length = 0 then
    ⟨none, some (.validation "at least one message is required"), [], false, 0⟩
  else if (req.messages.getLastD ⟨"", ""⟩).role ≠ MessageRoleUser then
    ⟨none, some (.validation "the last message must be from the user"), [], false, 0⟩
  else if req.presencePenalty ≠ 0 ∧ req.frequencyPenalty ≠ 0 then
    ⟨none, some (.validation
      "PresencePenalty and FrequencyPenalty are incompatible; only one should be set"),
      [], false, 0⟩
  else
    match exchange with
    | .error e => ⟨none, some (.transport e), [], true, 0⟩
    | .ok res =>
      if res.statusCode ≠ 200 then
        match decodeApi res.body.readData with
        | .ok p =>
          if p.error ≠ "" then ⟨none, some (.apiError p.error), [], true, 1⟩
          else ⟨none, some (.unexpectedStatus res.status), [], true, 1⟩
        | .error _ => ⟨none, some (.unexpectedStatus res.status), [], true, 1⟩
      else if isEventStream res.contentType then
        if req.stream.isNone then
          ⟨none, some .missingHandler, [], true, 1⟩
        else
          let sr := handleStreamingResponse decode req.stream.isSome res.body
          ⟨none, sr.error, sr.events, true, 1 + sr.closes⟩
      else
        match res.body.readErr with
        | some e => ⟨none, some (.bodyRead e), [], true, 1⟩
        | none =>
          match decode res.body.readData with
          | .error e => ⟨none, some (.bodyDecode e), [], true, 1⟩
          | .ok r => ⟨some r, none, [], true, 1⟩

/-! Helper lemmas about the SSE line discipline. -/

theorem dataTag_append_ne_empty (j : String) : ("data: " ++ j) ≠ "" := by
  intro h
  have h2 := congrArg String.data h
  rw [String.data_append] at h2
  simp [String.data] at h2

theorem dataTag_append_eq_done (j : String) :
    ("data: " ++ j) = "data: [DONE]" ↔ j = "[DONE]" := by
  constructor
  · intro h
    have h2 := congrArg String.data h
    rw [String.data_append] at h2
    have h3 : ("data: " : String).data ++ j.data
        = ("data: " : String).data ++ ("[DONE]" : String).data := h2
    exact String.ext (List.append_cancel_left h3)
  · intro h; rw [h]; rfl

theorem isDataLine_dataTag_append (j : String) : isDataLine ("data: " ++ j) = true := by
  unfold isDataLine strTake
  rw [String.data_append]
  simp [String.data]

theorem strDrop_dataTag_append (j : String) : strDrop ("data: " ++ j) 6 = j := by
  unfold strDrop
  rw [String.data_append]
  apply String.ext
  show List.drop 6 (('d' :: 'a' :: 't' :: 'a' :: ':' :: ' ' :: []) ++ j.data) = _
  simp

/-- Successful payload of a decoder outcome, if any. -/
def exceptOk {ε α : Type} : Except ε α → Option α
  | .ok a => some a
  | .error _ => none

/-- Values the streaming loop would deliver for a list of lines whose
data lines all decode: the decoded payloads of the data lines, in order. -/
def eventsOf (decode : Decoder ChatCompletionResponse) (ls : List String) :
    List ChatCompletionResponse :=
  ls.filterMap (fun l => if isDataLine l then exceptOk (decode (strDrop l 6)) else none)

theorem streamLoop_datas_done (decode : Decoder ChatCompletionResponse)
    (re : Option String) :
    ∀ (datas : List String) (rs : List ChatCompletionResponse),
    datas.map decode = rs.map Except.ok →
    (∀ j ∈ datas, j ≠ "[DONE]") →
    streamLoop decode re (datas.map (fun j => "data: " ++ j) ++ ["data: [DONE]"])
      = (rs, none) := by
  intro datas
  induction datas with
  | nil =>
    intro rs h _
    have hrs : rs = [] := by
      cases rs with
      | nil => rfl
      | cons a l => simp at h
    subst hrs
    simp [streamLoop]
  | cons j ds ih =>
    intro rs h hd
    cases rs with
    | nil => simp at h
    | cons r rs' =>
      simp only [List.map_cons, List.cons.injEq] at h
      obtain ⟨hj, hds⟩ := h
      have hjd : j ≠ "[DONE]" := hd j (by simp)
      simp only [List.map_cons, List.cons_append]
      rw [streamLoop]
      rw [if_neg (dataTag_append_ne_empty j)]
      rw [if_neg (fun hh => hjd ((dataTag_append_eq_done j).mp hh))]
      rw [if_pos (isDataLine_dataTag_append j)]
      rw [strDrop_dataTag_append, hj]
      rw [ih rs' hds (fun x hx => hd x (by simp [hx]))]

theorem streamLoop_stops_at_bad (decode : Decoder ChatCompletionResponse)
    (re : Option String) (e : String) (bad : String)
    (hbad : decode bad = .error e) (hdone : bad ≠ "[DONE]") :
    ∀ (pre rest : List String),
    (∀ l ∈ pre, l ≠ "data: [DONE]") →
    (∀ l ∈ pre, isDataLine l = true → ∃ r, decode (strDrop l 6) = .ok r) →
    streamLoop decode re (pre ++ ("data: " ++ bad) :: rest)
      = (eventsOf decode pre, some (.eventDecode e)) := by
  intro pre
  induction pre with
  | nil =>
    intro rest _ _
    simp only [List.nil_append]
    rw [streamLoop]
    rw [if_neg (dataTag_append_ne_empty bad)]
    rw [if_neg (fun hh => hdone ((dataTag_append_eq_done bad).mp hh))]
    rw [if_pos (isDataLine_dataTag_append bad)]
    rw [strDrop_dataTag_append, hbad]
    rfl
  | cons l pre' ih =>
    intro rest hsent hok
    have hl : l ≠ "data: [DONE]" := hsent l (by simp)
    simp only [List.cons_append]
    rw [streamLoop]
    by_cases he : l = ""
    · subst he
      rw [if_pos rfl]
      rw [ih rest (fun x hx => hsent x (by simp [hx])) (fun x hx => hok x (by simp [hx]))]
      simp [eventsOf, isDataLine, strTake]
    · rw [if_neg he, if_neg hl]
      by_cases hdl : isDataLine l = true
      · rw [if_pos hdl]
        obtain ⟨r, hr⟩ := hok l (by simp) hdl
        rw [hr]
        rw [ih rest (fun x hx => hsent x (by simp [hx])) (fun x hx => hok x (by simp [hx]))]
        simp [eventsOf, hdl, hr, exceptOk]
      · rw [if_neg hdl]
        rw [ih rest (fun x hx => hsent x (by simp [hx])) (fun x hx => hok x (by simp [hx]))]
        simp [eventsOf, hdl]

theorem eventsOf_length (decode : Decoder ChatCompletionResponse) :
    ∀ (ls : List String),
    (∀ l ∈ ls, isDataLine l = true → ∃ r, decode (strDrop l 6) = .ok r) →
    (eventsOf decode ls).length = (ls.filter (fun l => isDataLine l)).length := by
  intro ls
  induction ls with
  | nil => intro _; rfl
  | cons l ls' ih =>
    intro hok
    by_cases hdl : isDataLine l = true
    · obtain ⟨r, hr⟩ := hok l (by simp) hdl
      simp [eventsOf, List.filterMap_cons, List.filter_cons, hdl, hr, exceptOk]
      have := ih (fun x hx => hok x (by simp [hx]))
      simpa [eventsOf] using this
    · simp [eventsOf, List.filterMap_cons, List.filter_cons, hdl]
      have := ih (fun x hx => hok x (by simp [hx]))
      simpa [eventsOf] using this

/-! Lookup lemmas for the serialized field list. -/

theorem lookupField_append (a b : List (String × Jval)) (k : String)
    (h : lookupField a k = none) :
    lookupField (a ++ b) k = lookupField b k := by
  induction a with
  | nil => simp
  | cons p a' ih =>
    obtain ⟨k', v⟩ := p
    by_cases hk : k' = k
    · simp [lookupField, hk] at h
    · simp only [lookupField, List.cons_append, if_neg hk] at h ⊢
      exact ih h

theorem lookupField_append_none (a b : List (String × Jval)) (k : String)
    (ha : lookupField a k = none) (hb : lookupField b k = none) :
    lookupField (a ++ b) k = none := by
  rw [lookupField_append a b k ha]; exact hb

theorem lookupField_ite_none (c : Prop) [Decidable c] (k k' : String) (v : Jval)
    (h : ¬ k = k') :
    lookupField (if c then [] else [(k, v)]) k' = none := by
  split <;> simp [lookupField, h]

/-! Concrete instances used by the witness theorems: a simple decoder
pair and small requests and responses.  In the JSON string literals
below, \x7b and \x7d are the brace characters. -/

def emptyUsage : Usage := ⟨0, 0, 0⟩

def emptyResp : ChatCompletionResponse := ⟨"", "", "", 0, [], emptyUsage⟩

/-- A concrete event decoder: accepts the document \x7b\x7d only. -/
def dec0 : Decoder ChatCompletionResponse := fun s =>
  if s = "\x7b\x7d" then .ok emptyResp else .error "invalid JSON document"

/-- A concrete apiError decoder: accepts one fixed error document. -/
def decApi0 : Decoder ApiErrorPayload := fun s =>
  if s = "\x7b\"error\":\"bad request\"\x7d" then .ok ⟨"bad request"⟩
  else .error "invalid JSON document"

def userMsg : Message := ⟨MessageRoleUser, "hi"⟩

/-- A valid request carrying a streaming callback. -/
def reqCb : ChatCompletionRequest Unit :=
  { model := "m", messages := [userMsg], stream := some () }

/-- A valid request without a streaming callback. -/
def reqPlain : ChatCompletionRequest Unit :=
  { model := "m", messages := [userMsg] }

/-- A request whose last message is not from the user. -/
def reqBadRole : ChatCompletionRequest Unit :=
  { model := "m", messages := [⟨MessageRoleAssistant, "x"⟩] }

/-- A 200 event-stream response with two events then the sentinel. -/
def resStreamDone : HttpResponse :=
  ⟨200, "200 OK", "text/event-stream",
    ⟨["data: \x7b\x7d", "data: \x7b\x7d", "data: [DONE]"], none⟩⟩

/-- A 400 response with a decodable structured error body. -/
def res400 : HttpResponse :=
  ⟨400, "400 Bad Request", "application/json",
    ⟨["\x7b\"error\":\"bad request\"\x7d"], none⟩⟩

/-- A 201 response (success class, but not 200). -/
def res201 : HttpResponse :=
  ⟨201, "201 Created", "application/json", ⟨[], none⟩⟩

/-- A 200 single-document response. -/
def resPlain : HttpResponse :=
  ⟨200, "200 OK", "application/json", ⟨["\x7b\x7d"], none⟩⟩

/-! Claim theorems. -/

/-- C1: for a streaming body of N lines of the form data: [valid JSON]
followed by the line data: [DONE], ChatCompletion invokes the callback
exactly N times, once per data line in line order (the events field
lists the callback arguments in call order), and returns a nil
response pointer and a nil error. -/
theorem streaming_termination_invokes_callback_per_line {σ : Type}
    (decode : Decoder ChatCompletionResponse) (decodeApi : Decoder ApiErrorPayload)
    (req : ChatCompletionRequest σ) (res : HttpResponse)
    (datas : List String) (rs : List ChatCompletionResponse) (cb : σ)
    (h1 : ¬ req.model = "") (h2 : ¬ req.messages.length = 0)
    (h3 : (req.messages.getLastD ⟨"", ""⟩).role = MessageRoleUser)
    (h4 : ¬(req.presencePenalty ≠ 0 ∧ req.frequencyPenalty ≠ 0))
    (hcb : req.stream = some cb)
    (hst : res.statusCode = 200)
    (hct : isEventStream res.contentType = true)
    (hbody : res.body.lines = datas.map (fun j => "data: " ++ j) ++ ["data: [DONE]"])
    (hdec : datas.map decode = rs.map Except.ok)
    (hnd : ∀ j ∈ datas, j ≠ "[DONE]") :
    ChatCompletion decode decodeApi req (.ok res) = ⟨none, none, rs, true, 2⟩
      ∧ rs.length = datas.length := by
  have hloop := streamLoop_datas_done decode res.body.readErr datas rs hdec hnd
  constructor
  · unfold ChatCompletion
    rw [if_neg h1, if_neg h2, if_neg (not_not_intro h3), if_neg h4]
    simp only [hst, hct, hcb]
    unfold handleStreamingResponse
    simp only [hbody, hloop]
    simp
  · have := congrArg List.length hdec
    simpa using this.symm

/-- C1 witness: two valid data lines then the sentinel give exactly two
callback invocations, a nil response and a nil error. -/
theorem streaming_termination_invokes_callback_per_line_witness :
    ChatCompletion dec0 decApi0 reqCb (.ok resStreamDone)
      = ⟨none, none, [emptyResp, emptyResp], true, 2⟩
      ∧ ([emptyResp, emptyResp] : List ChatCompletionResponse).length
          = ["\x7b\x7d", "\x7b\x7d"].length :=
  streaming_termination_invokes_callback_per_line dec0 decApi0 reqCb resStreamDone
    ["\x7b\x7d", "\x7b\x7d"] [emptyResp, emptyResp] ()
    (by decide) (by decide) rfl (by decide) rfl rfl rfl rfl rfl (by decide)

/-- C2 counterexample: on a clean streaming termination the body is
closed twice, not exactly once — both ChatCompletion (line 338) and
handleStreamingResponse (line 376) defer res.Body.Close, so every path
that enters the streaming handler closes the transport resource two
times. -/
theorem body_close_streaming_counterexample :
    (ChatCompletion dec0 decApi0 reqCb (.ok resStreamDone)).error = none
    ∧ (ChatCompletion dec0 decApi0 reqCb (.ok resStreamDone)).response = none
    ∧ (ChatCompletion dec0 decApi0 reqCb (.ok resStreamDone)).closes = 2
    ∧ (ChatCompletion dec0 decApi0 reqCb (.ok resStreamDone)).closes ≠ 1 :=
  ⟨rfl, rfl, rfl, by decide⟩

/-- C2 amended: on every exit path of ChatCompletion that has received
a transport response the body is closed at least once and never
leaked, but not always exactly once: it is closed exactly once on the
API-error path, the missing-callback path and the single-document
paths (normal completion, read error, decode error), and exactly twice
on every path that enters the streaming handler (clean termination,
mid-stream decode error, read error), because both functions defer a
close. -/
theorem body_close_count_characterization {σ : Type}
    (decode : Decoder ChatCompletionResponse) (decodeApi : Decoder ApiErrorPayload)
    (req : ChatCompletionRequest σ) (res : HttpResponse)
    (h1 : ¬ req.model = "") (h2 : ¬ req.messages.length = 0)
    (h3 : (req.messages.getLastD ⟨"", ""⟩).role = MessageRoleUser)
    (h4 : ¬(req.presencePenalty ≠ 0 ∧ req.frequencyPenalty ≠ 0)) :
    (ChatCompletion decode decodeApi req (.ok res)).closes
      = if res.statusCode ≠ 200 then 1
        else if isEventStream res.contentType && req.stream.isSome then 2
        else 1 := by
  unfold ChatCompletion
  rw [if_neg h1, if_neg h2, if_neg (not_not_intro h3), if_neg h4]
  by_cases hst : res.statusCode = 200
  · by_cases hct : isEventStream res.contentType = true
    · cases hs : req.stream with
      | none => simp [hst, hct, hs]
      | some cb => simp [hst, hct, hs, handleStreamingResponse]
    · have hctf : isEventStream res.contentType = false := eq_false_of_ne_true hct
      cases hre : res.body.readErr with
      | some e => simp [hst, hctf, hre]
      | none => cases hdec : decode res.body.readData <;> simp [hst, hctf, hre, hdec]
  · cases hapi : decodeApi res.body.readData with
    | error e => simp [hst, hapi]
    | ok p =>
      by_cases hpe : p.error = ""
      · simp [hst, hapi, hpe]
      · simp [hst, hapi, hpe]

/-- C2 witness: the close-count characterization evaluated on a
single-document 200 response (one close) and read off at the concrete
input. -/
theorem body_close_count_characterization_witness :
    (ChatCompletion dec0 decApi0 reqPlain (.ok resPlain)).closes
      = if (resPlain.statusCode ≠ 200 : Prop) then 1
        else if isEventStream resPlain.contentType && reqPlain.stream.isSome then 2
        else 1 :=
  body_close_count_characterization dec0 decApi0 reqPlain resPlain
    (by decide) (by decide) rfl (by decide)

/-- C3: for every request violating a validation rule (empty model,
empty message list, last message role not user, or both penalties
non-zero), ChatCompletion returns a validation error whose trace shows
no HTTP exchange, for every possible exchange outcome; the request
value itself is never modified (the embedding is a pure function of
the request). -/
theorem validation_failure_no_exchange {σ : Type}
    (decode : Decoder ChatCompletionResponse) (decodeApi : Decoder ApiErrorPayload)
    (req : ChatCompletionRequest σ) (exchange : Except String HttpResponse)
    (hviol : req.model = "" ∨ req.messages.length = 0
      ∨ (req.messages.getLastD ⟨"", ""⟩).role ≠ MessageRoleUser
      ∨ (req.presencePenalty ≠ 0 ∧ req.frequencyPenalty ≠ 0)) :
    ∃ m, ChatCompletion decode decodeApi req exchange
      = ⟨none, some (.validation m), [], false, 0⟩ := by
  unfold ChatCompletion
  by_cases a : req.model = ""
  · rw [if_pos a]; exact ⟨_, rfl⟩
  · rw [if_neg a]
    by_cases b : req.messages.length = 0
    · rw [if_pos b]; exact ⟨_, rfl⟩
    · rw [if_neg b]
      by_cases c : (req.messages.getLastD ⟨"", ""⟩).role ≠ MessageRoleUser
      · rw [if_pos c]; exact ⟨_, rfl⟩
      · rw [if_neg c]
        by_cases d : req.presencePenalty ≠ 0 ∧ req.frequencyPenalty ≠ 0
        · rw [if_pos d]; exact ⟨_, rfl⟩
        · exfalso; rcases hviol with h | h | h | h <;> simp_all

/-- C3 witness: the wrong-last-role request fails validation with no
exchange performed. -/
theorem validation_failure_no_exchange_witness :
    ∃ m, ChatCompletion dec0 decApi0 reqBadRole (.ok resPlain)
      = ⟨none, some (.validation m), [], false, 0⟩ :=
  validation_failure_no_exchange dec0 decApi0 reqBadRole (.ok resPlain)
    (Or.inr (Or.inr (Or.inl (by decide))))

/-- C4: when the stream reaches a data line whose JSON part fails to
decode after a prefix of lines whose data lines all decode, the
callback has been invoked exactly once per earlier data line (K minus
one times for the K-th data line failing), the call returns the
mid-stream decode error (wrapped with the unmarshal-event text,
distinct from a stream-read error), and the result is the same
whatever lines follow the failing one. -/
theorem streaming_decode_failure_stops {σ : Type}
    (decode : Decoder ChatCompletionResponse) (decodeApi : Decoder ApiErrorPayload)
    (req : ChatCompletionRequest σ)
    (st ct : String) (re : Option String) (cb : σ)
    (pre : List String) (bad e : String)
    (h1 : ¬ req.model = "") (h2 : ¬ req.messages.length = 0)
    (h3 : (req.messages.getLastD ⟨"", ""⟩).role = MessageRoleUser)
    (h4 : ¬(req.presencePenalty ≠ 0 ∧ req.frequencyPenalty ≠ 0))
    (hcb : req.stream = some cb)
    (hct : isEventStream ct = true)
    (hbad : decode bad = .error e) (hdone : bad ≠ "[DONE]")
    (hsent : ∀ l ∈ pre, l ≠ "data: [DONE]")
    (hok : ∀ l ∈ pre, isDataLine l = true → ∃ r, decode (strDrop l 6) = .ok r) :
    ∀ rest : List String,
      ChatCompletion decode decodeApi req
          (.ok ⟨200, st, ct, ⟨pre ++ ("data: " ++ bad) :: rest, re⟩⟩)
        = ⟨none, some (.eventDecode e), eventsOf decode pre, true, 2⟩
      ∧ (eventsOf decode pre).length = (pre.filter (fun l => isDataLine l)).length
      ∧ (CallError.eventDecode e).text = "failed to unmarshal streaming event: " ++ e
      ∧ ∀ m, CallError.eventDecode e ≠ CallError.streamRead m := by
  intro rest
  have hloop := streamLoop_stops_at_bad decode re e bad hbad hdone pre rest hsent hok
  refine ⟨?_, eventsOf_length decode pre hok, rfl, fun m h => by cases h⟩
  unfold ChatCompletion
  rw [if_neg h1, if_neg h2, if_neg (not_not_intro h3), if_neg h4]
  simp only [hcb, hct]
  unfold handleStreamingResponse
  simp only [hloop]
  simp

/-- C4 witness: one valid data line, then a malformed one, then one
more line that is provably not processed. -/
theorem streaming_decode_failure_stops_witness :
    ChatCompletion dec0 decApi0 reqCb
        (.ok ⟨200, "200 OK", "text/event-stream",
          ⟨["data: \x7b\x7d"] ++ ("data: " ++ "nope") :: ["data: \x7b\x7d"], none⟩⟩)
      = ⟨none, some (.eventDecode "invalid JSON document"),
          eventsOf dec0 ["data: \x7b\x7d"], true, 2⟩
    ∧ (eventsOf dec0 ["data: \x7b\x7d"]).length
        = (["data: \x7b\x7d"].filter (fun l => isDataLine l)).length
    ∧ (CallError.eventDecode "invalid JSON document").text
        = "failed to unmarshal streaming event: " ++ "invalid JSON document"
    ∧ ∀ m, CallError.eventDecode "invalid JSON document" ≠ CallError.streamRead m :=
  streaming_decode_failure_stops dec0 decApi0 reqCb "200 OK" "text/event-stream"
    none () ["data: \x7b\x7d"] "nope" "invalid JSON document"
    (by decide) (by decide) rfl (by decide) rfl rfl rfl (by decide)
    (by intro l hl; simp at hl; subst hl; decide)
    (by
      intro l hl hdl
      simp at hl
      subst hl
      exact ⟨emptyResp, rfl⟩)
    ["data: \x7b\x7d"]

/-- C5: a successful-status response classified as an event stream,
with no streaming callback on the request, yields the missing-handler
usage error immediately: the result is independent of the body (no
bytes of the stream are consumed) and the callback is never invoked. -/
theorem missing_handler_usage_error {σ : Type}
    (decode : Decoder ChatCompletionResponse) (decodeApi : Decoder ApiErrorPayload)
    (req : ChatCompletionRequest σ) (st ct : String)
    (h1 : ¬ req.model = "") (h2 : ¬ req.messages.length = 0)
    (h3 : (req.messages.getLastD ⟨"", ""⟩).role = MessageRoleUser)
    (h4 : ¬(req.presencePenalty ≠ 0 ∧ req.frequencyPenalty ≠ 0))
    (hns : req.stream = none)
    (hct : isEventStream ct = true) :
    ∀ b b' : Body,
      ChatCompletion decode decodeApi req (.ok ⟨200, st, ct, b⟩)
        = ⟨none, some .missingHandler, [], true, 1⟩
      ∧ ChatCompletion decode decodeApi req (.ok ⟨200, st, ct, b⟩)
        = ChatCompletion decode decodeApi req (.ok ⟨200, st, ct, b'⟩) := by
  have key : ∀ b : Body, ChatCompletion decode decodeApi req (.ok ⟨200, st, ct, b⟩)
      = ⟨none, some .missingHandler, [], true, 1⟩ := by
    intro b
    unfold ChatCompletion
    rw [if_neg h1, if_neg h2, if_neg (not_not_intro h3), if_neg h4]
    simp [hns, hct]
  intro b b'
  exact ⟨key b, (key b).trans (key b').symm⟩

/-- C5 witness: a stream-classified response without a callback fails
with the usage error, identically for two different bodies. -/
theorem missing_handler_usage_error_witness :
    ChatCompletion dec0 decApi0 reqPlain
        (.ok ⟨200, "200 OK", "text/event-stream", ⟨["data: \x7b\x7d"], none⟩⟩)
      = ⟨none, some .missingHandler, [], true, 1⟩
    ∧ ChatCompletion dec0 decApi0 reqPlain
        (.ok ⟨200, "200 OK", "text/event-stream", ⟨["data: \x7b\x7d"], none⟩⟩)
      = ChatCompletion dec0 decApi0 reqPlain
        (.ok ⟨200, "200 OK", "text/event-stream", ⟨[], some "boom"⟩⟩) :=
  missing_handler_usage_error dec0 decApi0 reqPlain "200 OK" "text/event-stream"
    (by decide) (by decide) rfl (by decide) rfl rfl
    ⟨["data: \x7b\x7d"], none⟩ ⟨[], some "boom"⟩

/-- C6: on a failure status, a body decoding to a structured error
with a non-empty message yields an error carrying that service
message (its rendered text contains the message); an empty message or
an undecodable body yields the generic status-describing error. -/
theorem api_error_message_propagation {σ : Type}
    (decode : Decoder ChatCompletionResponse) (decodeApi : Decoder ApiErrorPayload)
    (req : ChatCompletionRequest σ) (res : HttpResponse)
    (h1 : ¬ req.model = "") (h2 : ¬ req.messages.length = 0)
    (h3 : (req.messages.getLastD ⟨"", ""⟩).role = MessageRoleUser)
    (h4 : ¬(req.presencePenalty ≠ 0 ∧ req.frequencyPenalty ≠ 0))
    (hst : res.statusCode ≠ 200) :
    (∀ m, decodeApi res.body.readData = .ok ⟨m⟩ → m ≠ "" →
       ChatCompletion decode decodeApi req (.ok res)
         = ⟨none, some (.apiError m), [], true, 1⟩
       ∧ ∃ suf hd, (CallError.apiError m).text = hd ++ m ++ suf)
    ∧ (∀ m, decodeApi res.body.readData = .ok ⟨m⟩ → m = "" →
       ChatCompletion decode decodeApi req (.ok res)
         = ⟨none, some (.unexpectedStatus res.status), [], true, 1⟩)
    ∧ (∀ e, decodeApi res.body.readData = .error e →
       ChatCompletion decode decodeApi req (.ok res)
         = ⟨none, some (.unexpectedStatus res.status), [], true, 1⟩) := by
  refine ⟨?_, ?_, ?_⟩
  · intro m hm hne
    constructor
    · unfold ChatCompletion
      rw [if_neg h1, if_neg h2, if_neg (not_not_intro h3), if_neg h4]
      simp [hst, hm, hne]
    · exact ⟨"", "API error: ", by simp [CallError.text]⟩
  · intro m hm he
    unfold ChatCompletion
    rw [if_neg h1, if_neg h2, if_neg (not_not_intro h3), if_neg h4]
    simp [hst, hm, he]
  · intro e he
    unfold ChatCompletion
    rw [if_neg h1, if_neg h2, if_neg (not_not_intro h3), if_neg h4]
    simp [hst, he]

/-- C6 witness: status 400 with the structured error body yields the
API error carrying the text bad request. -/
theorem api_error_message_propagation_witness :
    ChatCompletion dec0 decApi0 reqPlain (.ok res400)
      = ⟨none, some (.apiError "bad request"), [], true, 1⟩
    ∧ ∃ suf hd, (CallError.apiError "bad request").text
        = hd ++ "bad request" ++ suf :=
  (api_error_message_propagation dec0 decApi0 reqPlain res400
      (by decide) (by decide) rfl (by decide) (by decide)).1
    "bad request" rfl (by decide)

/-- C7: serializing a request with a callback produces a stream field
equal to true; with no callback the stream key is absent; and the
serialized form is a function of callback presence only, never of the
callback value itself (no constructor of Jval can hold a function, and
two requests differing only in their callback serialize identically). -/
theorem marshal_stream_flag {σ : Type} (req : ChatCompletionRequest σ) :
    (req.stream.isSome = true →
       lookupField (marshalChatCompletionRequest req) "stream" = some (.bool true))
    ∧ (req.stream.isSome = false →
       lookupField (marshalChatCompletionRequest req) "stream" = none)
    ∧ ∀ f g : σ,
        marshalChatCompletionRequest {req with stream := some f}
          = marshalChatCompletionRequest {req with stream := some g} := by
  have hrest : ∀ s : Option σ,
      lookupField (marshalChatCompletionRequest {req with stream := s}) "stream"
        = (if s.isSome then some (.bool true) else none) := by
    intro s
    unfold marshalChatCompletionRequest
    rw [lookupField_append]
    · by_cases h : s.isSome
      · simp only [h, if_pos]
        simp [lookupField]
      · simp only [eq_false_of_ne_true h]
        simp [lookupField]
    · repeat' apply lookupField_append_none
      all_goals
        first
        | exact lookupField_ite_none _ _ _ _ (by decide)
        | simp [lookupField]
  have hfull : ∀ r : ChatCompletionRequest σ, r = {r with stream := r.stream} := by
    intro r; rfl
  refine ⟨?_, ?_, ?_⟩
  · intro h
    have hx := hrest req.stream
    rw [← hfull req] at hx
    rw [hx, h]
    rfl
  · intro h
    have hx := hrest req.stream
    rw [← hfull req] at hx
    rw [hx, h]
    rfl
  · intro f g
    simp [marshalChatCompletionRequest]

/-- C7 witness: the callback-carrying request serializes stream true,
the callback-free request has no stream field. -/
theorem marshal_stream_flag_witness :
    lookupField (marshalChatCompletionRequest reqCb) "stream" = some (.bool true)
    ∧ lookupField (marshalChatCompletionRequest reqPlain) "stream" = none :=
  ⟨(marshal_stream_flag reqCb).1 rfl, (marshal_stream_flag reqPlain).2.1 rfl⟩

/-- C8: in the streaming read loop, an empty line, and any non-empty
line that is neither the sentinel data: [DONE] nor data:-tagged, is
skipped: the loop result on that line followed by the rest equals the
result on the rest alone, so no callback invocation and no error come
from the ignored line. -/
theorem loop_ignores_unrecognized_lines (decode : Decoder ChatCompletionResponse)
    (re : Option String) (line : String) (rest : List String)
    (h : line = "" ∨ (line ≠ "data: [DONE]" ∧ isDataLine line = false)) :
    streamLoop decode re (line :: rest) = streamLoop decode re rest := by
  rw [streamLoop]
  by_cases he : line = ""
  · rw [if_pos he]
  · rcases h with h | ⟨hs, hd⟩
    · exact absurd h he
    · rw [if_neg he, if_neg hs, if_neg (by simp [hd])]

/-- C8 witness: an unrecognized SSE field line is skipped by the loop. -/
theorem loop_ignores_unrecognized_lines_witness :
    streamLoop dec0 none ("event: foo" :: ["data: [DONE]"])
      = streamLoop dec0 none ["data: [DONE]"] :=
  loop_ignores_unrecognized_lines dec0 none "event: foo" ["data: [DONE]"]
    (Or.inr ⟨by decide, by decide⟩)

/-- C9: every status code other than exactly 200 (success-class codes
such as 201 included) takes the failure path — the result is the
generic status error or the API error, with no response and no
callback invocation — and conversely a decoded response or any
callback invocation can only arise when the status is exactly 200. -/
theorem non_200_is_failure {σ : Type}
    (decode : Decoder ChatCompletionResponse) (decodeApi : Decoder ApiErrorPayload)
    (req : ChatCompletionRequest σ)
    (h1 : ¬ req.model = "") (h2 : ¬ req.messages.length = 0)
    (h3 : (req.messages.getLastD ⟨"", ""⟩).role = MessageRoleUser)
    (h4 : ¬(req.presencePenalty ≠ 0 ∧ req.frequencyPenalty ≠ 0)) :
    (∀ res : HttpResponse, res.statusCode ≠ 200 →
       ChatCompletion decode decodeApi req (.ok res)
         = ⟨none, some (.unexpectedStatus res.status), [], true, 1⟩
       ∨ ∃ m, m ≠ "" ∧ ChatCompletion decode decodeApi req (.ok res)
         = ⟨none, some (.apiError m), [], true, 1⟩)
    ∧ ∀ res : HttpResponse,
        ((ChatCompletion decode decodeApi req (.ok res)).response.isSome = true
          ∨ (ChatCompletion decode decodeApi req (.ok res)).events ≠ []) →
        res.statusCode = 200 := by
  constructor
  · intro res hst
    unfold ChatCompletion
    rw [if_neg h1, if_neg h2, if_neg (not_not_intro h3), if_neg h4]
    cases hapi : decodeApi res.body.readData with
    | error e => left; simp [hst, hapi]
    | ok p =>
      by_cases hpe : p.error = ""
      · left; simp [hst, hapi, hpe]
      · right; exact ⟨p.error, hpe, by simp [hst, hapi, hpe]⟩
  · intro res h
    by_contra hne
    unfold ChatCompletion at h
    rw [if_neg h1, if_neg h2, if_neg (not_not_intro h3), if_neg h4] at h
    cases hapi : decodeApi res.body.readData with
    | error e => simp [hne, hapi] at h
    | ok p =>
      by_cases hpe : p.error = ""
      · simp [hne, hapi, hpe] at h
      · simp [hne, hapi, hpe] at h

/-- C9 witness: status 201 is treated as a failure. -/
theorem non_200_is_failure_witness :
    ChatCompletion dec0 decApi0 reqPlain (.ok res201)
      = ⟨none, some (.unexpectedStatus res201.status), [], true, 1⟩
    ∨ ∃ m, m ≠ "" ∧ ChatCompletion dec0 decApi0 reqPlain (.ok res201)
      = ⟨none, some (.apiError m), [], true, 1⟩ :=
  (non_200_is_failure dec0 decApi0 reqPlain
      (by decide) (by decide) rfl (by decide)).1 res201 (by decide)

/-- C10: when the content type is not classified as an event stream,
the callback is never invoked — even when one is supplied — and any
decoded response is delivered only through the return value, as the
decode of the fully-read body. -/
theorem non_stream_never_invokes_callback {σ : Type}
    (decode : Decoder ChatCompletionResponse) (decodeApi : Decoder ApiErrorPayload)
    (req : ChatCompletionRequest σ) (res : HttpResponse)
    (hct : isEventStream res.contentType = false) :
    (ChatCompletion decode decodeApi req (.ok res)).events = []
    ∧ ∀ r, (ChatCompletion decode decodeApi req (.ok res)).response = some r →
        res.body.readErr = none ∧ decode res.body.readData = .ok r := by
  unfold ChatCompletion
  by_cases a : req.model = ""
  · rw [if_pos a]; simp
  · rw [if_neg a]
    by_cases b : req.messages.length = 0
    · rw [if_pos b]; simp
    · rw [if_neg b]
      by_cases c : (req.messages.getLastD ⟨"", ""⟩).role ≠ MessageRoleUser
      · rw [if_pos c]; simp
      · rw [if_neg c]
        by_cases d : req.presencePenalty ≠ 0 ∧ req.frequencyPenalty ≠ 0
        · rw [if_pos d]; simp
        · rw [if_neg d]
          by_cases hst : res.statusCode = 200
          · cases hre : res.body.readErr with
            | some e => simp [hst, hct, hre]
            | none =>
              cases hdec : decode res.body.readData with
              | error e => simp [hst, hct, hre, hdec]
              | ok r => simp [hst, hct, hre, hdec]
          · cases hapi : decodeApi res.body.readData with
            | error e => simp [hst, hapi]
            | ok p =>
              by_cases hpe : p.error = ""
              · simp [hst, hapi, hpe]
              · simp [hst, hapi, hpe]

/-- C10 witness: a JSON single-document response with a callback
supplied invokes no callback and returns the decoded body. -/
theorem non_stream_never_invokes_callback_witness :
    (ChatCompletion dec0 decApi0 reqCb (.ok resPlain)).events = []
    ∧ ∀ r, (ChatCompletion dec0 decApi0 reqCb (.ok resPlain)).response = some r →
        resPlain.body.readErr = none ∧ dec0 resPlain.body.readData = .ok r :=
  non_stream_never_invokes_callback dec0 decApi0 reqCb resPlain (by decide)

end Perplexity
